import Mathlib

/-!
Shallow embedding of the Dreamweaver bedtime-story engine
(`src/python/story_engine.py`) and verification of its specification.

The program is a single-file pipeline: an optional user "moral" is
safety-classified by an external text service, a story request is
categorized by keyword search, a draft is generated, judged, revised,
and optionally refined from user feedback.  External service calls are
modelled by passing the service's textual response (or a response
oracle) as an explicit argument; `random.choice` is modelled by an
explicit index argument.  Machine reals (Python floats) are modelled by
`ℚ`; Python `int()` truncation is modelled explicitly.
-/

namespace StoryEngine

/-- Model of Python `str.strip()`: drop leading and trailing whitespace. -/
def py_strip (s : String) : String :=
  ⟨((s.data.dropWhile Char.isWhitespace).reverse.dropWhile Char.isWhitespace).reverse⟩

/-- Model of Python `str.lower()`: lowercase every character. -/
def py_lower (s : String) : String :=
  ⟨s.data.map Char.toLower⟩

/-- Model of Python `str.upper()`: uppercase every character. -/
def py_upper (s : String) : String :=
  ⟨s.data.map Char.toUpper⟩

/-- Model of Python `s.startswith(t)`. -/
def py_startswith (s t : String) : Bool :=
  t.data.isPrefixOf s.data

/-- Substring occurrence test on character lists (auxiliary for `py_in`). -/
def list_has_sub (needle : List Char) : List Char → Bool
  | [] => needle.isEmpty
  | c :: rest => needle.isPrefixOf (c :: rest) || list_has_sub needle rest

/-- Model of Python `needle in haystack` on strings: substring containment. -/
def py_in (needle haystack : String) : Bool :=
  list_has_sub needle.data haystack.data

/-- Model of Python `int()` applied to a nonnegative-or-negative real:
truncation toward zero. -/
def py_int (q : ℚ) : ℤ :=
  if 0 ≤ q then ⌊q⌋ else ⌈q⌉

/-- `estimate_word_target` (story_engine.py lines 49-54):
`return int(length_minutes * 150)`. -/
def estimate_word_target (length_minutes : ℚ) : ℤ :=
  py_int (length_minutes * 150)

/-- `categorize_request` (story_engine.py lines 60-68), transcribed:
lowercase the request, then test keyword substrings in order. -/
def categorize_request (request : String) : String :=
  let text := py_lower request
  if py_in ("doctor") text || py_in ("hospital") text || py_in ("nurse") text then
    "medical_comfort"
  else if py_in ("space") text || py_in ("planet") text || py_in ("rocket") text ||
      py_in ("star") text then
    "space_adventure"
  else if py_in ("animal") text || py_in ("cat") text || py_in ("dog") text ||
      py_in ("forest") text || py_in ("farm") text then
    "animal_friendship"
  else
    "generic"

/-- Spec-side restatement of the categorizer (§4.2 of the spec): keyword
sets per category in a fixed priority list; the first category whose set
has a match wins; `"generic"` is the default.  Kept separate from
`categorize_request` so the two can be compared. -/
def CATEGORY_KEYWORDS : List (String × List String) :=
  [("medical_comfort", ["doctor", "hospital", "nurse"]),
   ("space_adventure", ["space", "planet", "rocket", "star"]),
   ("animal_friendship", ["animal", "cat", "dog", "forest", "farm"])]

/-- Spec-side categorizer: first matching category in priority order. -/
def categorize_request_spec (request : String) : String :=
  let text := py_lower request
  match CATEGORY_KEYWORDS.find? (fun p => p.2.any (fun kw => py_in kw text)) with
  | some p => p.1
  | none => "generic"

/-- `SAFE_MORALS` (story_engine.py lines 74-85): the fixed fallback pool. -/
def SAFE_MORALS : List String :=
  ["Kindness to others is important.",
   "Sharing and generosity make everyone happier.",
   "Being honest and telling the truth matters.",
   "It is okay to be afraid; courage means trying anyway.",
   "Friends help each other and work together.",
   "Taking care of the world and nature is important.",
   "Everyone makes mistakes, and we can learn from them.",
   "Being patient and not giving up helps you grow.",
   "It is important to be yourself and accept who you are.",
   "Helping others when they need it is a good thing."]

/-- Model of `random.choice(SAFE_MORALS)`: the random source is an
explicit index, reduced modulo the pool size. -/
def choose_safe_moral (pick : Nat) : String :=
  SAFE_MORALS.getD (pick % SAFE_MORALS.length) ("")

/-- Response interpretation of `classify_moral_safety` (story_engine.py
lines 100-133): the service response is stripped, uppercased, and tested
with `startswith("SAFE")`.  The service call itself is modelled by taking
the response text as an argument. -/
def classify_moral_safety (classifier_response : String) : Bool :=
  py_startswith (py_upper (py_strip classifier_response)) ("SAFE")

/-- `select_moral` (story_engine.py lines 136-155).  `pick` models the
`random.choice` draw; `classifier_response` models the text returned by
the safety-classifier service call (only consulted when the user moral is
non-empty).  Returns `(selected_moral, overridden, original_moral)`. -/
def select_moral (pick : Nat) (classifier_response : String) (user_moral : String)
    (_age : ℤ) : String × Bool × Option String :=
  if user_moral = "" then
    (choose_safe_moral pick, false, none)
  else if classify_moral_safety classifier_response then
    (user_moral, false, none)
  else
    (choose_safe_moral pick, true, some user_moral)

/-- Model of the Python format spec `f"{q:.1f}"` on nonnegative values:
one decimal digit after rounding to tenths. -/
def format_1f (q : ℚ) : String :=
  let n : ℤ := round (q * 10)
  toString (n / 10) ++ "." ++ toString (n % 10)

/-- A single request to the external text service: the composed
instruction, the maximum-token budget (`none` when the call site omits it
and the client default applies), and the sampling temperature. -/
structure ServiceCall where
  prompt : String
  max_tokens : Option Nat
  temperature : ℚ
deriving Repr, DecidableEq

/-- Default `max_tokens` of `call_model` (story_engine.py line 16). -/
def CALL_MODEL_DEFAULT_MAX_TOKENS : Nat := 1500

/-- Effective token budget of a call after the client applies its default. -/
def resolved_max_tokens (c : ServiceCall) : Nat :=
  c.max_tokens.getD CALL_MODEL_DEFAULT_MAX_TOKENS

/-- The instruction composed by `classify_moral_safety`
(story_engine.py lines 107-131), transcribed. -/
def classify_prompt (moral : String) (age : ℤ) : String :=
  "\n    You are a safety and ethics classifier for children\x27s bedtime story morals.\n" ++
  "\n    A parent has requested the following moral/lesson for a story intended for a child\n" ++
  "    who is " ++ toString age ++ " years old (between 5 and 10):\n" ++
  "\n    MORAL:\n    \"\"\"" ++ moral ++ "\"\"\"\n" ++
  "\n    Your task:\n" ++
  "    - Decide if this moral is SAFE and AGE-APPROPRIATE for a 5–10 year old child.\n" ++
  "    - A safe moral should emphasize positive traits such as kindness, empathy,\n" ++
  "    cooperation, honesty, curiosity, patience, courage, self-acceptance,\n" ++
  "    responsibility, or gentle resilience.\n" ++
  "    - A moral is UNSAFE if it encourages harm, hatred, exclusion, bullying, cruelty,\n" ++
  "    risky or illegal behavior, unhealthy relationships, self-blame, extreme\n" ++
  "    self-sacrifice, or anything that could be psychologically harmful or confusing\n" ++
  "    to a young child.\n" ++
  "\n    Return EXACTLY ONE WORD (no explanation):\n" ++
  "    Either:\n    SAFE\n    or\n    UNSAFE\n    "

/-- The service call made by `classify_moral_safety` (story_engine.py
line 132): `max_tokens=5, temperature=0.0`. -/
def classify_moral_safety_call (moral : String) (age : ℤ) : ServiceCall :=
  ⟨classify_prompt moral age, some 5, 0⟩

/-- The instruction composed by `generate_story`
(story_engine.py lines 169-212), transcribed. -/
def generate_prompt (request : String) (age : ℤ) (category : String)
    (length_minutes : ℚ) (moral : String) : String :=
  "\nYou are an expert fiction writer.\n" ++
  "\nGoal:\n" ++
  "Write a bedtime story appropriate for a child who is " ++ toString age ++
  " years old (ages 5–10).\n" ++
  "\nUSER REQUEST:\n\"\"\"" ++ request ++ "\"\"\"\n" ++
  "\nCATEGORY: " ++ category ++ "\n" ++
  "\nDESIRED MORAL / LESSON:\n\"\"\"" ++ moral ++ "\"\"\"\n" ++
  "\nThe story should clearly embody this moral through the actions, choices,\n" ++
  "and growth of the main character. Do not lecture; show the moral through the story." ++
  " The main character should learn the moral themselves through the challenge.\n" ++
  "\nStory length requirements:\n" ++
  "- The story should take about " ++ format_1f length_minutes ++
  " minutes to read aloud.\n" ++
  "- Aim for approximately " ++ toString (estimate_word_target length_minutes) ++
  " words total (±20% is okay).\n" ++
  "- Use clear paragraphs and simple sentence structures.\n" ++
  "\nContent requirements:\n" ++
  "- Create characters and worlds that will capture their imaginations and emotions.\n" ++
  "- Use sensory-rich descriptions so the child can visualize the scene.\n" ++
  "- The main character should be a child. THey should be kind, curious, or brave" ++
  " - but not perfect. Trying is beautiful.\n" ++
  "- The story is about the character\x27s inner journey, not the external events.\n" ++
  "\nSafety requirements:\n" ++
  "- Keep your target audience of young children firmly in mind.\n" ++
  "- No violence, no scary imagery, no injuries, no blood, no abuse, no self-harm," ++
  " no sexual content.\n" ++
  "\nStory structure requirements:\n" ++
  "    Write the story in 6 acts:\n" ++
  "\n    Act 1 — This part introduces: The main character (who they are, what they" ++
  " care about), Where they are (setting), What they want (desire)\n" ++
  "    Act 2 - The Inciting Incident: Something small changes. Something unexpected" ++
  " that sparks curiosity or tension. This gives the story momentum.\n" ++
  "    Act 3 - Rising Action: Here, the character: Learns something new, meets" ++
  " someone helpful, faces a challenge. The purpose is to grow the character and" ++
  " gently stimulate imagination.\n" ++
  "    Act 4 - The Turning Point/Climax: A moment of high tension. The moment of" ++
  " insight. The moment of connection. The moment of emotional discovery.\n" ++
  "    Act 5 - The Resolution: The challenge is resolved. The purpose is to give" ++
  " closure and to emphasize THE MORAL OF THE STORY.\n" ++
  "    Act 6 - The Denouement (The Sleepy Landing): A peaceful ladning where the" ++
  " world becomes quiet, the tone slows down, the atmosphere becomes cozy. The" ++
  " purpose is to physically prime the child\x27s nervous system for sleep.\n" ++
  "\nWrite the full story now:\n"

/-- The service call made by `generate_story` (story_engine.py line 213):
`max_tokens=3000, temperature=0.35`. -/
def generate_story_call (request : String) (age : ℤ) (category : String)
    (length_minutes : ℚ) (moral : String) : ServiceCall :=
  ⟨generate_prompt request age category length_minutes moral, some 3000, 0.35⟩

/-- The instruction composed by `judge_story`
(story_engine.py lines 222-283), transcribed.  The twelve metric names and
the phrases the specification singles out are kept as separate
concatenation components so their ordered occurrence can be read off the
structure. -/
def judge_prompt (story : String) (age : ℤ) (length_minutes : ℚ) : String :=
  "\nYou are a strict, detail-oriented safety and quality classifier for" ++
  " children\x27s bedtime stories.\n" ++
  "Your job is to evaluate whether a story is fully safe, age-appropriate," ++
  " calming, and emotionally\n" ++
  "supportive for a child who is " ++ toString age ++
  " years old (between 5 and 10).\n" ++
  "\nThe story should take about " ++ format_1f length_minutes ++
  " minutes to read aloud (~" ++ toString (estimate_word_target length_minutes) ++
  " words).\n" ++
  "\nEvaluate the story according to the following clearly-defined metrics.\n" ++
  "For each category, provide " ++ "a score from 1–10" ++
  " (higher = safer / better / more appropriate).\n" ++
  "\nSAFETY & QUALITY METRICS:\n" ++
  "\n1. " ++ "age_appropriateness" ++
  "\n   - Is the language, theme, and content suitable for ages 5–10?\n" ++
  "\n2. " ++ "violence_safety" ++
  "\n   - No harm, danger, threats, weapons, physical conflict, or injuries.\n" ++
  "\n3. " ++ "fear_safety" ++
  "\n   - No scary imagery, dark tension, frightening creatures, or" ++
  " anxiety-inducing scenes.\n" ++
  "\n4. " ++ "medical_safety" ++
  "\n   - No medical advice, diagnoses, procedures, or descriptions of" ++
  " illness/injury.\n" ++
  "\n5. " ++ "emotional_tone" ++
  "\n   - Calm, gentle, reassuring emotional atmosphere.\n" ++
  "\n6. " ++ "language_complexity" ++
  "\n   - Simple vocabulary, short sentences, concrete imagery appropriate for" ++
  " ages 5–10.\n" ++
  "\n7. " ++ "social_safety" ++
  "\n   - No bullying, humiliation, exclusion, stereotypes, or harmful" ++
  " interpersonal behavior.\n" ++
  "\n8. " ++ "real_world_safety" ++
  "\n   - No encouragement of unsafe behaviors (wandering alone at night," ++
  " climbing dangerous places).\n" ++
  "\n9. " ++ "sensory_safety" ++
  "\n   - Avoids overstimulating sensory descriptions (chaos, loud noises," ++
  " fast danger, flashing lights).\n" ++
  "\n10. " ++ "moral_clarity" ++
  "\n    - The story reinforces positive social-emotional lessons suitable for" ++
  " young children.\n" ++
  "\n11. " ++ "ending_serenity" ++
  "\n    - Ends with a peaceful, calming image appropriate for bedtime.\n" ++
  "\n12. " ++ "length_match" ++
  "\n    - Does the story roughly match the intended length (~" ++
  toString (estimate_word_target length_minutes) ++ " words ±20%)?\n" ++
  "\nRETURN FORMAT:\n" ++
  "\nA. A list of scores (1–10) for each metric in the order above.\n" ++
  "B. " ++ "A short bullet list of specific improvements" ++
  " to make the story:\n" ++
  "   - clearer,\n   - more soothing,\n   - safer across all metrics,\n" ++
  "   - and closer to the intended length (if needed).\n" ++
  "\n" ++ "Do NOT rewrite the story; only critique it." ++ "\n" ++
  "\nSTORY TO EVALUATE:\n\"\"\"" ++ story ++ "\"\"\"\n"

/-- The service call made by `judge_story` (story_engine.py line 285):
`call_model(prompt, temperature=0.2)` — no explicit token budget, so the
client default applies. -/
def judge_story_call (story : String) (age : ℤ) (length_minutes : ℚ) : ServiceCall :=
  ⟨judge_prompt story age length_minutes, none, 0.2⟩

/-- The instruction composed by `revise_story`
(story_engine.py lines 294-336), transcribed. -/
def revise_prompt (original_story judge_feedback : String) (age : ℤ)
    (length_minutes : ℚ) : String :=
  "\nYou are a strict safety censor and story repair specialist for" ++
  " children\x27s bedtime stories.\n" ++
  "\nYour job is to REMOVE any unsafe, inappropriate, overstimulating, frightening,\n" ++
  "medically inappropriate, socially harmful, or age-inappropriate content flagged\n" ++
  "by the judge, and REWRITE the story so it is fully safe, calming, and suitable\n" ++
  "for a child who is " ++ toString age ++ " years old (ages 5–10).\n" ++
  "\nThe story should be about " ++ format_1f length_minutes ++ " minutes (~" ++
  toString (estimate_word_target length_minutes) ++ " words).\n" ++
  "\nYou must treat the judge feedback as authoritative safety requirements.\n" ++
  "\nJUDGE FEEDBACK (must be fully addressed):\n\"\"\"" ++ judge_feedback ++ "\"\"\"\n" ++
  "\nORIGINAL STORY:\n\"\"\"" ++ original_story ++ "\"\"\"\n" ++
  "\nYOUR TASK:\n" ++
  "- Strictly censor ALL content identified as unsafe or inappropriate by the judge.\n" ++
  "- Delete unsafe scenes entirely, not partially.\n" ++
  "- Rewrite missing or removed sections so the story still flows smoothly and" ++
  " logically.\n" ++
  "- Maintain a calm, soothing emotional tone throughout.\n" ++
  "- Keep the story clearly appropriate for ages 5–10.\n" ++
  "- Ensure there is:\n" ++
  "  - NO violence or harm,\n" ++
  "  - NO fear or frightening imagery,\n" ++
  "  - NO unsafe real-world behaviors,\n" ++
  "  - NO medical advice, illness, or injuries,\n" ++
  "  - NO bullying or negative social behavior,\n" ++
  "  - NO sensory overstimulation,\n" ++
  "  - NO complex adult concepts.\n" ++
  "- Replace unsafe elements with soft, gentle, friendly, or magical alternatives.\n" ++
  "- Preserve the overall plot intent WITHOUT preserving unsafe details.\n" ++
  "- End the story with a peaceful, comforting bedtime-appropriate moment.\n" ++
  "- Aim for the target length (~" ++
  toString (estimate_word_target length_minutes) ++ " words).\n" ++
  "\nOUTPUT INSTRUCTIONS:\n" ++
  "Write the FULLY REVISED STORY below, containing ONLY safe, calm,\n" ++
  "emotionally warm content suitable for a bedtime story for ages 5–10.\n" ++
  "\nDo NOT explain your changes. Do NOT include notes. ONLY output the" ++
  " revised story.\n"

/-- The service call made by `revise_story` (story_engine.py line 338):
`max_tokens=3000, temperature=0.35`. -/
def revise_story_call (original_story judge_feedback : String) (age : ℤ)
    (length_minutes : ℚ) : ServiceCall :=
  ⟨revise_prompt original_story judge_feedback age length_minutes, some 3000, 0.35⟩

/-- The instruction composed by `apply_user_feedback`
(story_engine.py lines 347-363), transcribed. -/
def feedback_prompt (current_story feedback : String) (age : ℤ)
    (length_minutes : ℚ) : String :=
  "\nYou will refine a children\x27s bedtime story based on user feedback.\n" ++
  "\nChild age: " ++ toString age ++ " (between 5 and 10)\n" ++
  "Target: " ++ format_1f length_minutes ++ " minutes (~" ++
  toString (estimate_word_target length_minutes) ++ " words).\n" ++
  "\nCurrent story:\n\"\"\"" ++ current_story ++ "\"\"\"\n" ++
  "\nUser feedback:\n\"\"\"" ++ feedback ++ "\"\"\"\n" ++
  "\nRevise the story to incorporate the feedback in an age-appropriate way.\n" ++
  "Do not add anything scary, violent, or medically inappropriate.\n" ++
  "Keep the story approximately the same length (around " ++
  toString (estimate_word_target length_minutes) ++ " words, ±20%).\n" ++
  "\nWrite the final story:\n"

/-- The service call made by `apply_user_feedback` (story_engine.py
line 365): `max_tokens=3000, temperature=0.4`. -/
def apply_user_feedback_call (current_story feedback : String) (age : ℤ)
    (length_minutes : ℚ) : ServiceCall :=
  ⟨feedback_prompt current_story feedback age length_minutes, some 3000, 0.4⟩

/-! ### The pipeline (`main`, story_engine.py lines 388-437)

`call_model` (lines 16-29) looks up the credential in the process
environment and raises before issuing the request when it is missing or
empty; otherwise the service's response is modelled by an oracle from
`ServiceCall` to text. -/

/-- Truthiness of the credential: Python `if not openai.api_key` fires on
`None` and on the empty string. -/
def key_present (api_key : Option String) : Bool :=
  match api_key with
  | none => false
  | some s => !(s == "")

/-- The error message of `call_model` (story_engine.py line 20). -/
def MISSING_KEY_ERROR : String :=
  "Please set the OPENAI_API_KEY environment variable."

/-- Model of `call_model` (story_engine.py lines 16-29): check the
credential, then consult the service (the oracle). -/
def call_model (api_key : Option String) (oracle : ServiceCall → String)
    (c : ServiceCall) : Except String String :=
  if key_present api_key then Except.ok (oracle c) else Except.error MISSING_KEY_ERROR

/-- `select_moral` seen from `main`: the classifier service call is only
issued for a non-empty user moral, and its textual response feeds the pure
`select_moral`. -/
def select_moral_r (api_key : Option String) (oracle : ServiceCall → String)
    (pick : Nat) (user_moral : String) (age : ℤ) :
    Except String (String × Bool × Option String) :=
  if user_moral = "" then
    Except.ok (select_moral pick ("") user_moral age)
  else
    (call_model api_key oracle (classify_moral_safety_call user_moral age)).map
      (fun resp => select_moral pick resp user_moral age)

/-- The pipeline stages of `main`, in execution order. -/
inductive Stage
  | moral_selector
  | categorizer
  | generator
  | judge
  | reviser
  | feedback_applier
deriving Repr, DecidableEq

/-- The data `main` accumulates on a successful run. -/
structure PipelineOutput where
  selected_moral : String
  overridden : Bool
  original_moral : Option String
  category : String
  draft : String
  critique : String
  revised : String
  final : String
deriving Repr, DecidableEq

/-- Model of `main` (story_engine.py lines 388-437) after the interactive
input loops: `age` and `length_minutes` are the validated inputs,
`user_request` the request text, `user_moral_raw` and `user_notes_raw` the
raw optional inputs (stripped here exactly as `ask_for_moral` and `main`
strip them), `pick` the random draw, and `oracle` the external service.
Returns the list of completed stages together with either the fatal error
or the collected pipeline output. -/
def run_main (api_key : Option String) (oracle : ServiceCall → String) (pick : Nat)
    (age : ℤ) (length_minutes : ℚ) (user_request user_moral_raw user_notes_raw : String) :
    List Stage × Except String PipelineOutput :=
  let user_moral := py_strip user_moral_raw
  match select_moral_r api_key oracle pick user_moral age with
  | Except.error e => ([], Except.error e)
  | Except.ok (selected_moral, overridden, original_moral) =>
    let category := categorize_request user_request
    match call_model api_key oracle
        (generate_story_call user_request age category length_minutes selected_moral) with
    | Except.error e => ([Stage.moral_selector, Stage.categorizer], Except.error e)
    | Except.ok draft =>
      match call_model api_key oracle (judge_story_call draft age length_minutes) with
      | Except.error e =>
        ([Stage.moral_selector, Stage.categorizer, Stage.generator], Except.error e)
      | Except.ok critique =>
        match call_model api_key oracle
            (revise_story_call draft critique age length_minutes) with
        | Except.error e =>
          ([Stage.moral_selector, Stage.categorizer, Stage.generator, Stage.judge],
           Except.error e)
        | Except.ok revised =>
          let user_notes := py_strip user_notes_raw
          if user_notes = "" then
            ([Stage.moral_selector, Stage.categorizer, Stage.generator, Stage.judge,
              Stage.reviser],
             Except.ok ⟨selected_moral, overridden, original_moral, category, draft,
               critique, revised, revised⟩)
          else
            match call_model api_key oracle
                (apply_user_feedback_call revised user_notes age length_minutes) with
            | Except.error e =>
              ([Stage.moral_selector, Stage.categorizer, Stage.generator, Stage.judge,
                Stage.reviser],
               Except.error e)
            | Except.ok final =>
              ([Stage.moral_selector, Stage.categorizer, Stage.generator, Stage.judge,
                Stage.reviser, Stage.feedback_applier],
               Except.ok ⟨selected_moral, overridden, original_moral, category, draft,
                 critique, revised, final⟩)

/-! ### Ordered-occurrence predicate for prompt texts -/

/-- `strInOrder ns t` holds when the strings `ns` occur in `t` in the
given order, at non-overlapping positions from left to right. -/
def strInOrder : List String → String → Prop
  | [], _ => True
  | n :: ns, t => ∃ p q, t = p ++ n ++ q ∧ strInOrder ns q

lemma strInOrder_nil (t : String) : strInOrder [] t := trivial

lemma strInOrder_skip {ns : List String} {t : String} (a : String)
    (h : strInOrder ns t) : strInOrder ns (a ++ t) := by
  cases ns with
  | nil => trivial
  | cons n ns =>
    obtain ⟨p, q, ht, hrest⟩ := h
    refine ⟨a ++ p, q, ?_, hrest⟩
    rw [ht]
    simp only [String.append_assoc]

lemma strInOrder_found {ns : List String} {t : String} (n : String)
    (h : strInOrder ns t) : strInOrder (n :: ns) (n ++ t) :=
  ⟨"", t, by rw [String.empty_append], h⟩

/-- The twelve Judge metrics, in the order of the composed instruction. -/
def JUDGE_METRICS : List String :=
  ["age_appropriateness", "violence_safety", "fear_safety", "medical_safety",
   "emotional_tone", "language_complexity", "social_safety", "real_world_safety",
   "sensory_safety", "moral_clarity", "ending_serenity", "length_match"]

/-! ### Helper lemmas -/

/-- Every `random.choice` draw from the pool is a pool member. -/
lemma choose_safe_moral_mem (pick : Nat) : choose_safe_moral pick ∈ SAFE_MORALS := by
  unfold choose_safe_moral
  rw [List.getD_eq_getElem _ _ (Nat.mod_lt _ (by norm_num [SAFE_MORALS]))]
  exact List.getElem_mem _

/-- Every pool member is a non-empty string. -/
lemma safe_morals_ne_empty : ∀ m ∈ SAFE_MORALS, m ≠ "" := by decide

/-- Every `random.choice` draw from the pool is non-empty. -/
lemma choose_safe_moral_ne_empty (pick : Nat) : choose_safe_moral pick ≠ "" :=
  safe_morals_ne_empty _ (choose_safe_moral_mem pick)

/-- For durations at least 5 minutes the product is nonnegative, so the
Python `int()` truncation coincides with the floor. -/
lemma estimate_word_target_eq_floor (d : ℚ) (h5 : 5 ≤ d) :
    estimate_word_target d = ⌊d * 150⌋ := by
  unfold estimate_word_target py_int
  rw [if_pos]
  nlinarith

/-! ### Claim theorems for the pure stages -/

/-- C1 (counterexample): the claim says any classifier response other than
the explicit acknowledgment "SAFE" yields `overridden = true` with a
pool moral; but for the response "safe-ish" (explicitly listed in the
claim) the code strips, uppercases and tests `startswith("SAFE")`, so the
user moral "be kind" passes through verbatim with `overridden = false`,
and "be kind" is not a pool member. -/
theorem select_moral_safeish_counterexample :
    select_moral 0 ("safe-ish") ("be kind") 7 = ("be kind", false, none) ∧
    ("be kind" : String) ∉ SAFE_MORALS := by
  constructor
  · decide
  · decide

/-- C1 (amended): for a non-empty user moral, `overridden = false` exactly
when the classifier response, stripped of surrounding whitespace and
uppercased, starts with "SAFE"; in that case the user moral is used
verbatim with no original retained, and otherwise the moral is replaced by
a pool member with the original user text preserved. -/
theorem select_moral_fail_closed_amended (pick : Nat) (response user_moral : String)
    (age : ℤ) (h : user_moral ≠ "") :
    ((select_moral pick response user_moral age).2.1 = false ↔
      py_startswith (py_upper (py_strip response)) ("SAFE") = true) ∧
    (py_startswith (py_upper (py_strip response)) ("SAFE") = true →
      select_moral pick response user_moral age = (user_moral, false, none)) ∧
    (py_startswith (py_upper (py_strip response)) ("SAFE") = false →
      select_moral pick response user_moral age =
        (choose_safe_moral pick, true, some user_moral) ∧
      choose_safe_moral pick ∈ SAFE_MORALS) := by
  unfold select_moral classify_moral_safety
  rw [if_neg h]
  by_cases hc : py_startswith (py_upper (py_strip response)) ("SAFE") = true
  · simp [hc]
  · simp only [Bool.not_eq_true] at hc
    simp [hc, choose_safe_moral_mem]

/-- C1 (witness): instantiation of the amended theorem at the concrete
response "UNSAFE" and user moral "be kind". -/
theorem select_moral_fail_closed_amended_witness :
    ("be kind" : String) ≠ "" ∧
    (((select_moral 0 ("UNSAFE") ("be kind") 7).2.1 = false ↔
      py_startswith (py_upper (py_strip ("UNSAFE"))) ("SAFE") = true) ∧
    (py_startswith (py_upper (py_strip ("UNSAFE"))) ("SAFE") = true →
      select_moral 0 ("UNSAFE") ("be kind") 7 = ("be kind", false, none)) ∧
    (py_startswith (py_upper (py_strip ("UNSAFE"))) ("SAFE") = false →
      select_moral 0 ("UNSAFE") ("be kind") 7 =
        (choose_safe_moral 0, true, some ("be kind")) ∧
      choose_safe_moral 0 ∈ SAFE_MORALS)) :=
  ⟨by decide, select_moral_fail_closed_amended 0 ("UNSAFE") ("be kind") 7 (by decide)⟩

/-- C2: the categorizer agrees with the spec-side priority-ordered
keyword-set matcher, always returns one of the four fixed categories, and
sends the doubly-matching request "a doctor visits a farm" to
"medical_comfort".  Determinism is inherent: the embedding is a pure
function of the request text. -/
theorem categorize_request_conformance (r : String) :
    categorize_request r = categorize_request_spec r ∧
    categorize_request r ∈
      ["medical_comfort", "space_adventure", "animal_friendship", "generic"] ∧
    categorize_request ("a doctor visits a farm") = "medical_comfort" := by
  refine ⟨?_, ?_, by decide⟩
  · unfold categorize_request categorize_request_spec CATEGORY_KEYWORDS
    simp only [List.find?, List.any_cons, List.any_nil, Bool.or_false, Bool.or_assoc]
    set t := py_lower r with ht
    set b1 := py_in ("doctor") t || (py_in ("hospital") t || py_in ("nurse") t) with hb1
    set b2 := py_in ("space") t || (py_in ("planet") t || (py_in ("rocket") t ||
      py_in ("star") t)) with hb2
    set b3 := py_in ("animal") t || (py_in ("cat") t || (py_in ("dog") t ||
      (py_in ("forest") t || py_in ("farm") t))) with hb3
    clear_value b1 b2 b3
    cases b1 <;> cases b2 <;> cases b3 <;> rfl
  · unfold categorize_request
    dsimp only
    split_ifs <;> simp

/-- C3: for every duration in [5,20] and every age in [5,10], the length
estimator returns the floor of duration × 150 (Python `int()` truncation
coincides with the floor on nonnegative values), independently of age. -/
theorem estimate_word_target_floor (d : ℚ) (h5 : 5 ≤ d) (_h20 : d ≤ 20)
    (a : ℤ) (_ha5 : 5 ≤ a) (_ha10 : a ≤ 10) :
    estimate_word_target d = ⌊d * 150⌋ :=
  estimate_word_target_eq_floor d h5

/-- C3 (witness): instantiation at duration 7 and age 6, with the floor
evaluated. -/
theorem estimate_word_target_floor_witness :
    estimate_word_target 7 = ⌊(7 : ℚ) * 150⌋ ∧ estimate_word_target 7 = 1050 :=
  ⟨estimate_word_target_floor 7 (by norm_num) (by norm_num) 6 (by norm_num) (by norm_num),
   by norm_num [estimate_word_target, py_int]⟩

/-- C4 (counterexample): at duration 5.25 minutes (within [5,20]) the
product is 787.5; the code truncates to 787 while the claimed
round-to-nearest gives 788. -/
theorem estimate_word_target_round_counterexample :
    (5 : ℚ) ≤ 21 / 4 ∧ (21 / 4 : ℚ) ≤ 20 ∧
    estimate_word_target (21 / 4) = 787 ∧
    round ((21 / 4 : ℚ) * 150) = 788 ∧
    estimate_word_target (21 / 4) ≠ round ((21 / 4 : ℚ) * 150) := by
  refine ⟨by norm_num, by norm_num, ?_, ?_, ?_⟩
  · norm_num [estimate_word_target, py_int]
  · norm_num [round_eq]
  · norm_num [estimate_word_target, py_int, round_eq]

/-- C4 (amended): the derived target word count equals the floor of
duration × 150 (truncation), not the rounded value. -/
theorem estimate_word_target_floor_amended (d : ℚ) (h5 : 5 ≤ d) (_h20 : d ≤ 20) :
    estimate_word_target d = ⌊d * 150⌋ :=
  estimate_word_target_eq_floor d h5

/-- C4 (witness): instantiation of the amended theorem at duration 5.25. -/
theorem estimate_word_target_floor_amended_witness :
    estimate_word_target (21 / 4) = ⌊(21 / 4 : ℚ) * 150⌋ ∧
    estimate_word_target (21 / 4) = 787 :=
  ⟨estimate_word_target_floor_amended (21 / 4) (by norm_num) (by norm_num),
   by norm_num [estimate_word_target, py_int]⟩

/-- C5: with an empty user moral, `select_moral` returns an un-overridden
pool member with no original moral, for every random draw, and the result
never consults the classifier response (the same tuple results for any two
responses). -/
theorem select_moral_empty_user_moral (pick : Nat) (age : ℤ)
    (response response2 : String) :
    select_moral pick response ("") age = (choose_safe_moral pick, false, none) ∧
    choose_safe_moral pick ∈ SAFE_MORALS ∧
    select_moral pick response ("") age = select_moral pick response2 ("") age := by
  refine ⟨rfl, choose_safe_moral_mem pick, rfl⟩

/-- C10: result invariant of `select_moral`: the selected moral is
non-empty; `overridden` holds exactly when an original moral is retained;
and a retained original equals the user text, with the selected moral then
drawn from the pool. -/
theorem select_moral_result_invariant (pick : Nat) (response user_moral : String)
    (age : ℤ) :
    (select_moral pick response user_moral age).1 ≠ "" ∧
    ((select_moral pick response user_moral age).2.1 = true ↔
      ((select_moral pick response user_moral age).2.2).isSome = true) ∧
    (∀ m, (select_moral pick response user_moral age).2.2 = some m →
      m = user_moral ∧
      (select_moral pick response user_moral age).1 ∈ SAFE_MORALS) := by
  unfold select_moral
  by_cases h : user_moral = ""
  · simp [h, choose_safe_moral_ne_empty]
  · by_cases hc : classify_moral_safety response = true
    · simp [h, hc]
    · simp only [Bool.not_eq_true] at hc
      simp [h, hc, choose_safe_moral_ne_empty, choose_safe_moral_mem]

/-! ### Claim theorems for the pipeline and the service calls -/

/-- A trivial service oracle used for concrete instantiations. -/
def oracle0 : ServiceCall → String := fun _ => ""

/-- C6: when the stripped post-revision feedback is empty, the pipeline
never reaches the FeedbackApplier stage (so no service call is made for
it) and a successful run's FinalStory equals its RevisedStory. -/
theorem empty_feedback_final_is_revised (api_key : Option String)
    (oracle : ServiceCall → String) (pick : Nat) (age : ℤ) (d : ℚ)
    (request moral_raw notes_raw : String) (h : py_strip notes_raw = "") :
    Stage.feedback_applier ∉
      (run_main api_key oracle pick age d request moral_raw notes_raw).1 ∧
    ∀ out, (run_main api_key oracle pick age d request moral_raw notes_raw).2 =
        Except.ok out → out.final = out.revised := by
  unfold run_main
  simp only [h]
  constructor
  · repeat' split
    all_goals simp_all
  · intro out hout
    repeat' split at hout
    all_goals try simp_all
    all_goals (subst hout ; rfl)

/-- C6 (witness): a concrete run (credential present, blank feedback
notes) in which the final story is the revised story and the
FeedbackApplier stage is absent from the trace. -/
theorem empty_feedback_final_is_revised_witness :
    py_strip (" ") = "" ∧
    (Stage.feedback_applier ∉
      (run_main (some ("k")) oracle0 0 7 10 ("a story") ("") (" ")).1 ∧
    ∀ out, (run_main (some ("k")) oracle0 0 7 10 ("a story") ("") (" ")).2 =
        Except.ok out → out.final = out.revised) :=
  ⟨rfl, empty_feedback_final_is_revised (some ("k")) oracle0 0 7 10 ("a story")
    ("") (" ") rfl⟩

/-- C7 (counterexample): with the credential absent and an empty user
moral, the run does fail with the configuration error, but only at the
Generator's service call: the MoralSelector and RequestCategorizer stages
have already run, refuting "surfaced before any pipeline stage runs". -/
theorem missing_key_stages_counterexample :
    (run_main none oracle0 0 7 10 ("a story") ("") ("")).1 =
      [Stage.moral_selector, Stage.categorizer] ∧
    (run_main none oracle0 0 7 10 ("a story") ("") ("")).2 =
      Except.error MISSING_KEY_ERROR ∧
    ([Stage.moral_selector, Stage.categorizer] : List Stage) ≠ [] := by
  refine ⟨rfl, rfl, by decide⟩

/-- C7 (amended): if the service credential is absent (or empty), every
run aborts with the fatal configuration error, raised inside the client
before any request is issued — no service response is ever consumed (the
run is independent of the oracle) and no retry occurs; however stages that
need no service call (moral selection with an empty moral, categorization)
may complete before the error surfaces. -/
theorem missing_key_fatal (api_key : Option String) (oracle : ServiceCall → String)
    (pick : Nat) (age : ℤ) (d : ℚ) (request moral_raw notes_raw : String)
    (h : key_present api_key = false) :
    (run_main api_key oracle pick age d request moral_raw notes_raw).2 =
      Except.error MISSING_KEY_ERROR ∧
    ∀ oracle2, run_main api_key oracle pick age d request moral_raw notes_raw =
      run_main api_key oracle2 pick age d request moral_raw notes_raw := by
  have hcm : ∀ (o : ServiceCall → String) c, call_model api_key o c =
      Except.error MISSING_KEY_ERROR := by
    intro o c
    unfold call_model
    rw [h]
    rfl
  unfold run_main select_moral_r
  by_cases hm : py_strip moral_raw = "" <;> simp [hm, hcm, Except.map]

/-- C7 (witness): instantiation of the amended theorem with the credential
absent. -/
theorem missing_key_fatal_witness :
    key_present none = false ∧
    ((run_main none oracle0 0 7 10 ("a story") ("") ("")).2 =
      Except.error MISSING_KEY_ERROR ∧
    ∀ oracle2, run_main none oracle0 0 7 10 ("a story") ("") ("") =
      run_main none oracle2 0 7 10 ("a story") ("") ("")) :=
  ⟨rfl, missing_key_fatal none oracle0 0 7 10 ("a story") ("") ("") rfl⟩

/-- C8: per-stage service-call parameters: the moral safety classification
passes max tokens 5 at temperature 0.0, the Generator 3000 at 0.35, the
Judge omits the budget (so the client default applies) at 0.2, the Reviser
3000 at 0.35, and the FeedbackApplier 3000 at 0.4. -/
theorem service_call_budgets (moral request category story critique current
    feedback : String) (age : ℤ) (d : ℚ) :
    (classify_moral_safety_call moral age).max_tokens = some 5 ∧
    (classify_moral_safety_call moral age).temperature = 0 ∧
    (generate_story_call request age category d moral).max_tokens = some 3000 ∧
    (generate_story_call request age category d moral).temperature = 0.35 ∧
    (judge_story_call story age d).max_tokens = none ∧
    resolved_max_tokens (judge_story_call story age d) =
      CALL_MODEL_DEFAULT_MAX_TOKENS ∧
    (judge_story_call story age d).temperature = 0.2 ∧
    (revise_story_call story critique age d).max_tokens = some 3000 ∧
    (revise_story_call story critique age d).temperature = 0.35 ∧
    (apply_user_feedback_call current feedback age d).max_tokens = some 3000 ∧
    (apply_user_feedback_call current feedback age d).temperature = 0.4 :=
  ⟨rfl, rfl, rfl, rfl, rfl, rfl, rfl, rfl, rfl, rfl, rfl⟩

/-- C9: for every draft, age and duration, the Judge's composed
instruction contains, in left-to-right order: the request for a score
from 1–10 for each category, the twelve metric names in their fixed
order, the request for a short bullet list of improvements, and the
prohibition on rewriting the story. -/
theorem judge_prompt_enumerates_metrics (story : String) (age : ℤ) (d : ℚ) :
    strInOrder (["a score from 1–10"] ++ JUDGE_METRICS ++
      ["A short bullet list of specific improvements",
       "Do NOT rewrite the story; only critique it."])
      (judge_prompt story age d) := by
  unfold judge_prompt JUDGE_METRICS
  simp only [List.cons_append, List.nil_append, String.append_assoc]
  repeat first
    | exact strInOrder_nil _
    | apply strInOrder_found
    | apply strInOrder_skip

end StoryEngine
